import Mathlib

/-!
Shallow embedding of `main.py` of the Video-Extraction repository:
the platform scrapers (`get_kg_video_info`, `get_bilibili_video_info_fallback`),
the resolution orchestrator (`resolve_video`), and the format-policy /
file-locate parts of `download_merged`.

Python regular-expression searches are embedded as executable functions on
`List Char` implementing the leftmost-match-with-backtracking semantics of
`re.search` for exactly the patterns the source uses.  Network and
filesystem effects are passed in as explicit inputs (an `HttpResult` /
`ApiResult` value per call the code makes).
-/

namespace VideoExtraction

/-- Characters Python's `\s` (and `str.rstrip()` with no argument, on ASCII
text) treats as whitespace. -/
def pyIsSpace (c : Char) : Bool :=
  c = ' ' || c = '\t' || c = '\n' || c = '\x0b' || c = '\x0c' || c = '\r'

/-- Substring test: Python's `pat in s`. -/
def hasSub (pat : List Char) : List Char → Bool
  | [] => pat.isEmpty
  | c :: rest => pat.isPrefixOf (c :: rest) || hasSub pat rest

/-- `hasSub` on strings. -/
def hasSubS (pat s : String) : Bool := hasSub pat.data s.data

/-- Lazy capture for a pattern piece `(.*?)post` without `re.DOTALL`: the
shortest prefix (containing no newline) after which the literal `post`
occurs; returns the capture. Fails at a newline or end of input. -/
def lazyUntilLit (post : List Char) : List Char → Option (List Char)
  | [] => none
  | c :: rest =>
    if post.isPrefixOf (c :: rest) then some []
    else if c = '\n' then none
    else (lazyUntilLit post rest).map (fun l => c :: l)

/-- `re.search` of a pattern `pre(.*?)post` where `pre` and `post` are
literals: leftmost start position at which the whole pattern matches,
with backtracking to later positions when the lazy part fails. -/
def reSearchCap (pre post : List Char) : List Char → Option (List Char)
  | [] => none
  | c :: rest =>
    if pre.isPrefixOf (c :: rest) then
      match lazyUntilLit post ((c :: rest).drop pre.length) with
      | some cap => some cap
      | none => reSearchCap pre post rest
    else reSearchCap pre post rest

/-- Greedy `\s*`. -/
def skipWs (s : List Char) : List Char := s.dropWhile pyIsSpace

/-- The lazy body of `{.*?});` under `re.DOTALL`, entered just after the
opening `{`: the shortest run of arbitrary characters followed by `};`. -/
def lazyBodyToBraceSemi : List Char → Option (List Char)
  | '}' :: ';' :: _ => some []
  | c :: rest => (lazyBodyToBraceSemi rest).map (fun l => c :: l)
  | [] => none

/-- Try to match `window\.__DATA__\s*=\s*({.*?});` (with `re.DOTALL`)
anchored at the head of `s`; returns group 1 (braces included). -/
def matchDataAt (s : List Char) : Option (List Char) :=
  let lit := "window.__DATA__".data
  if lit.isPrefixOf s then
    match skipWs (s.drop lit.length) with
    | '=' :: r2 =>
      match skipWs r2 with
      | '{' :: r3 => (lazyBodyToBraceSemi r3).map (fun inner => '{' :: (inner ++ ['}']))
      | _ => none
    | _ => none
  else none

/-- `re.search(r'window\.__DATA__\s*=\s*({.*?});', content, re.DOTALL)`:
leftmost position where the whole pattern matches. -/
def searchData : List Char → Option (List Char)
  | [] => none
  | c :: rest =>
    match matchDataAt (c :: rest) with
    | some g => some g
    | none => searchData rest

/-- Lazy capture closed by either a `"` or a `'` (for the character class
`["\']` ending the loose `playurl` pattern), no newline allowed. -/
def lazyUntilQuote : List Char → Option (List Char)
  | [] => none
  | c :: rest =>
    if c = '"' || c = '\'' then some []
    else if c = '\n' then none
    else (lazyUntilQuote rest).map (fun l => c :: l)

/-- Try to match `playurl\s*[:=]\s*["\'](.*?)["\']` anchored at the head. -/
def matchLoosePlayurlAt (s : List Char) : Option (List Char) :=
  let lit := "playurl".data
  if lit.isPrefixOf s then
    match skipWs (s.drop lit.length) with
    | c :: r2 =>
      if c = ':' || c = '=' then
        match skipWs r2 with
        | q :: r3 =>
          if q = '"' || q = '\'' then lazyUntilQuote r3 else none
        | [] => none
      else none
    | [] => none
  else none

/-- `re.search(r'playurl\s*[:=]\s*["\'](.*?)["\']', content)`. -/
def searchLoosePlayurl : List Char → Option (List Char)
  | [] => none
  | c :: rest =>
    match matchLoosePlayurlAt (c :: rest) with
    | some g => some g
    | none => searchLoosePlayurl rest

/-- The tail `.*?mp4.*?["\']` of the `src` pattern: scan (no newline) to an
occurrence of `mp4` after which a quote is reachable on the same line;
lazily, with backtracking over `mp4` occurrences. Returns the capture
part after `http`. -/
def srcTail : List Char → Option (List Char)
  | [] => none
  | c :: rest =>
    if ("mp4".data).isPrefixOf (c :: rest) then
      match lazyUntilQuote ((c :: rest).drop 3) with
      | some cap => some ("mp4".data ++ cap)
      | none =>
        if c = '\n' then none
        else (srcTail rest).map (fun l => c :: l)
    else if c = '\n' then none
    else (srcTail rest).map (fun l => c :: l)

/-- Try to match `src\s*=\s*["\'](http.*?mp4.*?)["\']` anchored at the head. -/
def matchSrcAt (s : List Char) : Option (List Char) :=
  let lit := "src".data
  if lit.isPrefixOf s then
    match skipWs (s.drop lit.length) with
    | '=' :: r2 =>
      match skipWs r2 with
      | q :: r3 =>
        if q = '"' || q = '\'' then
          if ("http".data).isPrefixOf r3 then
            (srcTail (r3.drop 4)).map (fun l => "http".data ++ l)
          else none
        else none
      | [] => none
    | _ => none
  else none

/-- `re.search(r'src\s*=\s*["\'](http.*?mp4.*?)["\']', content)`. -/
def searchSrc : List Char → Option (List Char)
  | [] => none
  | c :: rest =>
    match matchSrcAt (c :: rest) with
    | some g => some g
    | none => searchSrc rest

/-- Python truthiness of a string-or-None variable. -/
def truthyS : Option (List Char) → Bool
  | some s => !s.isEmpty
  | none => false

/-- Python truthiness of an `Option String` value. -/
def truthyStr : Option String → Bool
  | some s => !s.isEmpty
  | none => false

/-- One entry of a `formats` list as the code builds it: a JSON object whose
keys are modelled as `Option`-valued fields (`none` = key absent or value
`None`).  The dict key `type` is the field `type`. -/
structure Format where
  url : Option String
  ext : Option String
  format_note : Option String
  filesize : Option Int
  format_id : Option String
  has_audio : Bool
  type : Option String
deriving Repr, DecidableEq

/-- The resolved-media JSON object the endpoints return. -/
structure ResolvedMedia where
  title : Option String
  thumbnail : Option String
  duration : Option Int
  webpage_url : Option String
  formats : List Format
deriving Repr, DecidableEq

/-- Result of one `requests.get` call: a network-level exception, or a
response with an HTTP status and a text body. -/
inductive HttpResult where
  | err : HttpResult
  | resp (status : Nat) (body : String) : HttpResult
deriving Repr, DecidableEq

/-- The structured-extraction branch of `get_kg_video_info` (the
`window.__DATA__` blob): returns `(video_url, title, cover)` as the three
variables stand after lines 78–106 of `main.py`.  `none` for `title`
means the default was kept. -/
def kg_structured (content : List Char) :
    Option (List Char) × Option (List Char) × Option (List Char) :=
  match searchData content with
  | none => (none, none, none)
  | some js =>
    let vu := reSearchCap ("\"playurl\":\"".data) ("\"".data) js
    let nick := reSearchCap ("\"nick\":\"".data) ("\"".data) js
    let cont := reSearchCap ("\"content\":\"".data) ("\"".data) js
    let cover := reSearchCap ("\"cover\":\"".data) ("\"".data) js
    let title :=
      match cont, nick with
      | some c, some n => some (n ++ " - ".data ++ c)
      | some c, none => some c
      | none, some n => some n
      | none, none => none
    (vu, title, cover)

/-- The loose-pattern fallback for the play URL (lines 110–117). -/
def kg_fallback_url (content : List Char) : Option (List Char) :=
  match searchLoosePlayurl content with
  | some g => some g
  | none => searchSrc content

/-- `re.search(r'<title>(.*?)</title>', content)` (line 120). -/
def kg_fallback_title (content : List Char) : Option (List Char) :=
  reSearchCap ("<title>".data) ("</title>".data) content

/-- The `video_url` variable after lines 73–122: the structured value if
truthy, else overwritten by a loose-pattern match when one exists. -/
def kg_video_url (content : List Char) : Option (List Char) :=
  let vu := (kg_structured content).1
  if truthyS vu then vu
  else
    match kg_fallback_url content with
    | some g => some g
    | none => vu

/-- The `title` variable after lines 73–122 (`none` = default kept). -/
def kg_title (content : List Char) : Option (List Char) :=
  if truthyS (kg_structured content).1 then (kg_structured content).2.1
  else
    match kg_fallback_title content with
    | some t => some t
    | none => (kg_structured content).2.1

/-- The result dict `get_kg_video_info` builds for a truthy `video_url`
(lines 124–143). -/
def kg_media (content u : List Char) : ResolvedMedia :=
  let ext_type :=
    if hasSub (".m4a".data) u || hasSub (".mp3".data) u then ("m4a", "audio")
    else ("mp4", "video")
  { title := some (match kg_title content with
      | some t => String.mk t
      | none => "全民K歌视频")
    thumbnail := some (match (kg_structured content).2.2 with
      | some c => String.mk c
      | none => "")
    duration := none
    webpage_url := none
    formats := [{ url := some (String.mk u)
                  ext := some ext_type.1
                  format_note := some "Default"
                  filesize := some 0
                  format_id := none
                  has_audio := true
                  type := some ext_type.2 }] }

/-- The pure part of `get_kg_video_info` applied to the fetched page text
(lines 71–144): builds the result dict, or `None` when no truthy play URL
was found. -/
def kg_parse (content : List Char) : Option ResolvedMedia :=
  match kg_video_url content with
  | none => none
  | some u => if u.isEmpty then none else some (kg_media content u)

/-- Scraper A, `get_kg_video_info` (lines 61–147): the single HTTP GET it
performs is passed in as `fetch`; every internal failure path yields
`none`.  `resp.raise_for_status()` raises exactly for statuses 400–599
(client and server errors); at any other status the body is parsed. -/
def get_kg_video_info (fetch : HttpResult) : Option ResolvedMedia :=
  match fetch with
  | .err => none
  | .resp status body =>
    if 400 ≤ status ∧ status < 600 then none
    else kg_parse body.data

/-! ## Scraper B: `get_bilibili_video_info_fallback` (lines 149–210) -/

/-- Python's `\w` on the ASCII repertoire. -/
def isWordChar (c : Char) : Bool := c.isAlphanum || c = '_'

/-- `re.search(r'(BV\w+)', url)`: leftmost `BV` followed by at least one
word character, then greedily as many as possible. -/
def extract_bvid : List Char → Option (List Char)
  | 'B' :: 'V' :: c :: rest =>
    if isWordChar c then some ('B' :: 'V' :: c :: rest.takeWhile isWordChar)
    else extract_bvid ('V' :: c :: rest)
  | _ :: rest => extract_bvid rest
  | [] => none

/-- One element of the play-URL API's `durl` array; `none` fields model
absent keys. -/
structure BiliDurl where
  url : Option String
  size : Option Int
deriving Repr, DecidableEq

/-- The `data` object of the page-info API response. -/
structure BiliViewData where
  title : Option String
  pic : Option String
  duration : Option Int
  cid : Option Int
deriving Repr, DecidableEq

/-- The page-info API JSON body. -/
structure BiliViewJson where
  code : Option Int
  data : Option BiliViewData
deriving Repr, DecidableEq

/-- The `data` object of the play-URL API response; `durl := none` models
the `durl` key being absent. -/
structure BiliPlayData where
  durl : Option (List BiliDurl)
deriving Repr, DecidableEq

/-- The play-URL API JSON body. -/
structure BiliPlayJson where
  code : Option Int
  data : Option BiliPlayData
deriving Repr, DecidableEq

/-- Result of an API call whose body has been JSON-decoded: `err` models a
network error or a JSON-decode failure (both raise in Python). -/
inductive ApiResult (α : Type) where
  | err : ApiResult α
  | ok (status : Nat) (body : α) : ApiResult α
deriving Repr, DecidableEq

/-- The formats loop of lines 189–198: each `durl` entry becomes one
Format; a missing `url` key raises `KeyError` mid-loop, which the outer
handler turns into `None` for the whole call. -/
def biliFormatsOfDurl : List BiliDurl → Option (List Format)
  | [] => some []
  | d :: rest =>
    match d.url with
    | none => none
    | some u =>
      (biliFormatsOfDurl rest).map
        (fun fs =>
          { url := some u
            ext := some "mp4"
            format_note := some "API Fallback (可能会有画质限制)"
            filesize := d.size
            format_id := some "api_mp4"
            has_audio := true
            type := some "video" } :: fs)

/-- The result dict Scraper B builds when it succeeds (lines 200–206). -/
def bili_media (bvid : List Char) (title pic : String) (dur : Int)
    (fs : List Format) : ResolvedMedia :=
  { title := some title
    thumbnail := some pic
    duration := some dur
    webpage_url := some ("https://www.bilibili.com/video/" ++ String.mk bvid)
    formats := fs }

/-- Scraper B, `get_bilibili_video_info_fallback` (lines 149–210).  Its two
`requests.get` calls are passed in as `infoResp` and `playResp`.  Note
that the code calls `raise_for_status` only on the first response —
raising exactly for statuses 400–599 — and that key lookups
(`data['code']`, `data['data']`, `durl['url']`, …) raise `KeyError`
when missing, which the outer handler converts to `None`. -/
def get_bilibili_video_info_fallback (url : String)
    (infoResp : ApiResult BiliViewJson) (playResp : ApiResult BiliPlayJson) :
    Option ResolvedMedia :=
  match extract_bvid url.data with
  | none => none
  | some bvid =>
    match infoResp with
    | .err => none
    | .ok st info =>
      if 400 ≤ st ∧ st < 600 then none
      else
        match info.code with
        | none => none
        | some c =>
          if c ≠ 0 then none
          else
            match info.data with
            | none => none
            | some vd =>
              match vd.title, vd.pic, vd.duration, vd.cid with
              | some title, some pic, some dur, some _cid =>
                match playResp with
                | .err => none
                | .ok _ play =>
                  match play.code with
                  | none => none
                  | some pc =>
                    if pc = 0 then
                      match play.data with
                      | none => none
                      | some pd =>
                        match pd.durl with
                        | none => some (bili_media bvid title pic dur [])
                        | some durls =>
                          match biliFormatsOfDurl durls with
                          | none => none
                          | some fs => some (bili_media bvid title pic dur fs)
                    else some (bili_media bvid title pic dur [])
              | _, _, _, _ => none

/-! ## Generic extractor path of `resolve_video` (lines 237–310) -/

/-- One raw format record from the generic extractor's info dict; `none`
fields model absent keys (Python `dict.get` returns `None`). -/
structure RawFormat where
  url : Option String
  ext : Option String
  format_note : Option String
  resolution : Option String
  filesize : Option Int
  format_id : Option String
  vcodec : Option String
  acodec : Option String
deriving Repr, DecidableEq

/-- The generic extractor's top-level info dict (the fields the code
reads). -/
structure YdlInfo where
  title : Option String
  thumbnail : Option String
  duration : Option Int
  webpage_url : Option String
  url : Option String
  ext : Option String
  filesize : Option Int
  formats : Option (List RawFormat)
deriving Repr, DecidableEq

/-- Python's `a or b` on a string-or-None left operand. -/
def pyOrS (a : Option String) (b : String) : String :=
  match a with
  | some s => if s.isEmpty then b else s
  | none => b

/-- The body of the per-format loop of lines 260–288: classify one raw
format, or drop it. -/
def classifyOne (f : RawFormat) : Option Format :=
  let has_video : Bool := f.vcodec != some "none"
  let has_audio : Bool := f.acodec != some "none"
  if has_video then
    let note0 := pyOrS f.format_note (pyOrS f.resolution "unknown")
    let note := if has_audio then note0 else note0 ++ " (无音频)"
    some { url := f.url, ext := f.ext, format_note := some note
           filesize := f.filesize, format_id := f.format_id
           has_audio := has_audio, type := some "video" }
  else if has_audio then
    some { url := f.url, ext := f.ext, format_note := some "仅音频"
           filesize := f.filesize, format_id := f.format_id
           has_audio := true, type := some "audio" }
  else none

/-- The whole classification loop, in input order. -/
def classifyFormats (l : List RawFormat) : List Format := l.filterMap classifyOne

/-- The synthesized single-URL fallback format of lines 292–298.  Note the
built dict has no `format_id` and no `type` key. -/
def fallbackFormat (info : YdlInfo) : Format :=
  { url := info.url
    ext := some (info.ext.getD "mp4")
    format_note := some "Default"
    filesize := info.filesize
    format_id := none
    has_audio := true
    type := none }

/-- The sort key of line 302: `(x.get('has_audio', False), x.get('filesize') or 0)`. -/
def pyKey (f : Format) : Bool × Int := (f.has_audio, f.filesize.getD 0)

/-- Python tuple comparison `x ≤ y` on a `(bool, int)` key
(`False < True`). -/
def keyLE (x y : Bool × Int) : Bool :=
  (x.1 == y.1 && decide (x.2 ≤ y.2)) || (!x.1 && y.1)

/-- `a` may precede `b` in the descending sort: key of `a` ≥ key of `b`. -/
def fmtGE (a b : Format) : Bool := keyLE (pyKey b) (pyKey a)

theorem keyLE_refl (x : Bool × Int) : keyLE x x = true := by
  simp [keyLE]

theorem keyLE_total (x y : Bool × Int) : (keyLE x y || keyLE y x) = true := by
  rcases x with ⟨a, m⟩
  rcases y with ⟨b, n⟩
  cases a <;> cases b <;> simp [keyLE] <;> omega

theorem keyLE_trans {x y z : Bool × Int} (h1 : keyLE x y = true)
    (h2 : keyLE y z = true) : keyLE x z = true := by
  rcases x with ⟨a, m⟩
  rcases y with ⟨b, n⟩
  rcases z with ⟨c, k⟩
  cases a <;> cases b <;> cases c <;> simp_all [keyLE] <;> omega

theorem fmtGE_trans (a b c : Format) (h1 : fmtGE a b = true) (h2 : fmtGE b c = true) :
    fmtGE a c = true := keyLE_trans h2 h1

theorem fmtGE_total (a b : Format) : (fmtGE a b || fmtGE b a) = true :=
  keyLE_total (pyKey b) (pyKey a)

/-- The may-precede relation of the descending sort, as a `Prop`. -/
def fmtR (a b : Format) : Prop := fmtGE a b = true

instance : DecidableRel fmtR := fun a b =>
  inferInstanceAs (Decidable (fmtGE a b = true))

instance : IsTrans Format fmtR :=
  ⟨fun a b c h1 h2 => fmtGE_trans a b c h1 h2⟩

instance : IsTotal Format fmtR :=
  ⟨fun a b => by
    have h := fmtGE_total a b
    rcases Bool.or_eq_true_iff.mp h with h' | h'
    · exact Or.inl h'
    · exact Or.inr h'⟩

/-- `formats.sort(key=..., reverse=True)` of line 302: Python's sort is a
stable sort, and a stable sort by a total preorder has a unique result,
so the embedding may use any stable sort; `List.insertionSort` is
stable. -/
def pySortFormats (l : List Format) : List Format := List.insertionSort fmtR l

/-- Normalization of a successful generic-extractor result
(lines 257–310). -/
def ydl_normalize (info : YdlInfo) : ResolvedMedia :=
  let formats := classifyFormats (info.formats.getD [])
  let formats :=
    if formats.isEmpty && truthyStr info.url then [fallbackFormat info] else formats
  { title := info.title
    thumbnail := info.thumbnail
    duration := info.duration
    webpage_url := info.webpage_url
    formats := pySortFormats formats }

/-- The effects `resolve_video` consumes: the platform scrapers' results
(for the call made when the URL matches the domain pattern) and the
generic extractor's outcome (`.error msg` models a raised exception with
text `msg`). -/
structure ResolveEnv where
  kgResult : Option ResolvedMedia
  biliResult : Option ResolvedMedia
  ydl : Except String YdlInfo
deriving Repr

/-- The `/api/resolve` handler `resolve_video` (lines 216–315).  A `.error
(400, d)` result models `HTTPException(status_code=400, detail=d)`; an
`.ok` result is a JSON 200 response.  A non-`None` scraper dict is
truthy in Python, so it is returned as-is, formats empty or not. -/
def resolve_video (url : String) (env : ResolveEnv) :
    Except (Nat × String) ResolvedMedia :=
  match (if hasSubS "kg.qq.com" url then env.kgResult else none) with
  | some info => .ok info
  | none =>
    match (if hasSubS "bilibili.com" url || hasSubS "b23.tv" url then
        env.biliResult else none) with
    | some info => .ok info
    | none =>
      match env.ydl with
      | .error e => .error (400, e)
      | .ok info => .ok (ydl_normalize info)

/-! ## `download_merged` (lines 317–458): sanitizer, format policy,
file-locate step -/

/-- The character filter of line 332: `c.isalpha() or c.isdigit() or c in
(' ', '-', '_', '.')`.  (Python's `isalpha`/`isdigit` are Unicode-aware;
this embedding covers the ASCII repertoire the endpoint's titles use.) -/
def allowedChar (c : Char) : Bool :=
  c.isAlpha || c.isDigit || c = ' ' || c = '-' || c = '_' || c = '.'

/-- Python `str.rstrip()`: drop trailing whitespace. -/
def rstripPy (s : List Char) : List Char :=
  (s.reverse.dropWhile pyIsSpace).reverse

/-- The `safe_title` computation of lines 332–334: keep allowed characters,
strip trailing whitespace, fall back to `"video"` when empty. -/
def safe_title_of (title : String) : String :=
  let t := rstripPy (title.data.filter allowedChar)
  if t.isEmpty then "video" else String.mk t

/-- The sanitizer as the claim words it (keep exactly the allowed
characters of the title, no more): stated separately so it can be
compared with `safe_title_of`, which the source defines. -/
def safe_title_claim (title : String) : String :=
  let t := title.data.filter allowedChar
  if t.isEmpty then "video" else String.mk t

/-- The download options the generic path builds (lines 403–419), reduced
to the fields the policy decision touches. -/
structure YdlDownloadOpts where
  outtmpl : String
  format : Option String
  merge_output_format : Option String
deriving Repr, DecidableEq

/-- Lines 403–419: base options plus the format policy chosen from ffmpeg
availability. -/
def build_download_opts (downloadDir safeTitle : String)
    (ffmpegAvailable : Bool) : YdlDownloadOpts :=
  let base : YdlDownloadOpts :=
    { outtmpl := downloadDir ++ "/" ++ safeTitle ++ ".%(ext)s"
      format := none
      merge_output_format := none }
  if ffmpegAvailable then
    { base with format := some "bestvideo+bestaudio/best"
                merge_output_format := some "mp4" }
  else
    { base with format := some "best" }

/-- Outcome of running the extractor's download step: it raised with
message `msg`, or it finished and the scratch directory then lists
`listing`. -/
inductive DlOutcome where
  | raise (msg : String) : DlOutcome
  | done (listing : List String) : DlOutcome
deriving Repr, DecidableEq

/-- `str()` of a `fastapi.HTTPException`: starlette defines `__str__` as
the status code, a colon-space, and the detail. -/
def httpExcStr (status : Nat) (detail : String) : String :=
  toString status ++ ": " ++ detail

/-- The generic (non-direct-link) tail of `download_merged`
(lines 403–458): build options, run the download (outcome supplied by
the oracle `dl` as a function of the options), locate the first file
whose name starts with the sanitized stem, and serve it.  The `raise
HTTPException(500, ...)` of line 438 sits inside the `try` of line 421,
so the `except Exception` of line 456 re-raises it as a 400 whose detail
is its `str()`. -/
def download_merged_generic (downloadDir title : String)
    (ffmpegAvailable : Bool) (dl : YdlDownloadOpts → DlOutcome) :
    Except (Nat × String) String :=
  let safeTitle := safe_title_of title
  let opts := build_download_opts downloadDir safeTitle ffmpegAvailable
  match dl opts with
  | .raise msg => .error (400, msg)
  | .done listing =>
    match listing.find? (fun f => safeTitle.data.isPrefixOf f.data) with
    | none => .error (400, httpExcStr 500 "Download failed: file not found")
    | some f => .ok f

/-! ## Theorems -/

/-- C7: Scraper A, given a page whose body contains
`window.__DATA__={"playurl":"http://x/a.mp4","nick":"Bob","content":"Song"}`
(here: that assignment, terminated by the `;` of the page's script),
extracts `playurl`, `nick` and `content` by targeted pattern search and
returns title `"Bob - Song"` with exactly one Format of type `"video"`
and ext `"mp4"`. -/
theorem kg_structured_extraction_example :
    get_kg_video_info (.resp 200
      "window.__DATA__=\x7b\"playurl\":\"http://x/a.mp4\",\"nick\":\"Bob\",\"content\":\"Song\"\x7d;")
      = some { title := some "Bob - Song", thumbnail := some "",
               duration := none, webpage_url := none,
               formats := [{ url := some "http://x/a.mp4", ext := some "mp4",
                             format_note := some "Default", filesize := some 0,
                             format_id := none, has_audio := true,
                             type := some "video" }] } := by decide

/-- C6 counterexample: `raise_for_status` raises only for statuses
400–599, so at an unraised non-2xx status (here 999) the source still
parses the body and can return a result — the claimed
`non-2xx response → None` fails. -/
theorem kg_non2xx_counterexample :
    get_kg_video_info (.resp 999 "playurl=\"http://v/x.mp4\"")
      = some { title := some "全民K歌视频", thumbnail := some ""
               duration := none, webpage_url := none
               formats := [{ url := some "http://v/x.mp4", ext := some "mp4"
                             format_note := some "Default", filesize := some 0
                             format_id := none, has_audio := true
                             type := some "video" }] } := by decide

/-- C6 amended: Scraper A never raises past its boundary — a network
error, an HTTP-error status (400–599, exactly where `raise_for_status`
raises), or no pattern yielding a truthy play URL each produce `none`;
at any other status (2xx, unfollowed 3xx, ≥600) the body is still
parsed; and every successful result carries exactly one Format. -/
theorem kg_never_raises_one_format :
    get_kg_video_info .err = none ∧
    (∀ st body, 400 ≤ st → st < 600 → get_kg_video_info (.resp st body) = none) ∧
    (∀ st body, ¬(400 ≤ st ∧ st < 600) →
      get_kg_video_info (.resp st body) = kg_parse body.data) ∧
    (∀ st body, ¬(400 ≤ st ∧ st < 600) → truthyS (kg_video_url body.data) = false →
      get_kg_video_info (.resp st body) = none) ∧
    (∀ fetch r, get_kg_video_info fetch = some r → r.formats.length = 1) := by
  refine ⟨rfl, ?_, ?_, ?_, ?_⟩
  · intro st body h1 h2
    simp [get_kg_video_info, h1, h2]
  · intro st body h
    simp [get_kg_video_info, h]
  · intro st body h ht
    simp only [get_kg_video_info, if_neg h]
    cases hv : kg_video_url body.data with
    | none => simp [kg_parse, hv]
    | some u =>
      rw [hv] at ht
      simp only [truthyS, Bool.not_eq_false'] at ht
      simp [kg_parse, hv, ht]
  · intro fetch r h
    cases fetch with
    | err => cases h
    | resp st body =>
      simp only [get_kg_video_info] at h
      split at h
      · cases h
      · simp only [kg_parse] at h
        split at h
        · cases h
        · split at h
          · cases h
          · injection h with h2
            subst h2
            rfl

/-- Witness for C6 at concrete inputs. -/
theorem kg_never_raises_one_format_witness :
    get_kg_video_info (.resp 502 "whatever") = none ∧
    get_kg_video_info (.resp 200 "no urls here") = none := by
  refine ⟨kg_never_raises_one_format.2.1 502 "whatever" (by decide) (by decide),
          kg_never_raises_one_format.2.2.2.1 200 "no urls here" (by decide) (by decide)⟩

/-- C5: one raw format of the generic-extractor path is classified as video
when its video codec is not `"none"` (audio flag mirroring the audio
codec, the no-audio marker appended to the note when audio is absent),
as audio labeled `"仅音频"` (audio only) when only the audio codec is
non-`"none"`, and dropped when both codecs are `"none"`. -/
theorem classify_branches (f : RawFormat) :
    ((f.vcodec != some "none") = true →
      classifyOne f = some
        { url := f.url, ext := f.ext
          format_note := some
            (if (f.acodec != some "none") then
              pyOrS f.format_note (pyOrS f.resolution "unknown")
            else pyOrS f.format_note (pyOrS f.resolution "unknown") ++ " (无音频)")
          filesize := f.filesize, format_id := f.format_id
          has_audio := (f.acodec != some "none"), type := some "video" }) ∧
    (f.vcodec = some "none" → (f.acodec != some "none") = true →
      classifyOne f = some
        { url := f.url, ext := f.ext, format_note := some "仅音频"
          filesize := f.filesize, format_id := f.format_id
          has_audio := true, type := some "audio" }) ∧
    (f.vcodec = some "none" → f.acodec = some "none" → classifyOne f = none) ∧
    (∀ l, f.vcodec = some "none" → f.acodec = some "none" →
      classifyFormats (f :: l) = classifyFormats l) := by
  refine ⟨?_, ?_, ?_, ?_⟩
  · intro h
    simp [classifyOne, h]
  · intro hv ha
    simp [classifyOne, hv, ha]
  · intro hv ha
    simp [classifyOne, hv, ha]
  · intro l hv ha
    simp [classifyFormats, List.filterMap_cons, classifyOne, hv, ha]

/-- Witness for C5: the three classification branches at concrete raw
formats. -/
theorem classify_branches_witness :
    classifyOne { url := some "u", ext := some "mp4", format_note := some "720p"
                  resolution := none, filesize := some 5, format_id := some "f1"
                  vcodec := some "h264", acodec := some "none" } = some
      { url := some "u", ext := some "mp4", format_note := some "720p (无音频)"
        filesize := some 5, format_id := some "f1"
        has_audio := false, type := some "video" } ∧
    classifyOne { url := some "u2", ext := some "m4a", format_note := none
                  resolution := none, filesize := none, format_id := none
                  vcodec := some "none", acodec := some "aac" } = some
      { url := some "u2", ext := some "m4a", format_note := some "仅音频"
        filesize := none, format_id := none
        has_audio := true, type := some "audio" } ∧
    classifyOne { url := some "u3", ext := none, format_note := none
                  resolution := none, filesize := none, format_id := none
                  vcodec := some "none", acodec := some "none" } = none := by
  refine ⟨(classify_branches _).1 (by decide), (classify_branches _).2.1 rfl (by decide),
          (classify_branches _).2.2.1 rfl rfl⟩

/-- The three-format example of the claim: `{audio:false, size:100}`,
`{audio:true, size:0}`, `{audio:true, size:50}` in input order, made
pairwise distinct via `format_id`. -/
def exNoAudio100 : Format :=
  { url := some "uA", ext := some "mp4", format_note := some "a"
    filesize := some 100, format_id := some "A", has_audio := false
    type := some "video" }

def exAudio0 : Format :=
  { url := some "uB", ext := some "mp4", format_note := some "b"
    filesize := some 0, format_id := some "B", has_audio := true
    type := some "video" }

def exAudio50 : Format :=
  { url := some "uC", ext := some "mp4", format_note := some "c"
    filesize := some 50, format_id := some "C", has_audio := true
    type := some "video" }

/-- Two formats with equal sort keys (audio, unknown size treated as 0)
for exhibiting stability. -/
def exTie1 : Format :=
  { url := some "uT1", ext := some "mp4", format_note := some "t1"
    filesize := none, format_id := some "T1", has_audio := true
    type := some "video" }

def exTie2 : Format :=
  { url := some "uT2", ext := some "mp4", format_note := some "t2"
    filesize := some 0, format_id := some "T2", has_audio := true
    type := some "video" }

/-- C2: the final ranking is a stable, deterministic sort on the composite
key `(has_audio, filesize-or-0)` descending: it is a permutation of the
input, pairwise ordered by descending key, ties (including unknown
sizes, which sort as 0) preserve input order, and the claim's concrete
example sorts as stated. -/
theorem formats_ranking_stable :
    (∀ l : List Format, (pySortFormats l).Perm l) ∧
    (∀ l : List Format, (pySortFormats l).Pairwise (fun a b => fmtGE a b = true)) ∧
    (∀ (l : List Format) (a b : Format), List.Sublist [a, b] l → pyKey a = pyKey b →
      List.Sublist [a, b] (pySortFormats l)) ∧
    pySortFormats [exNoAudio100, exAudio0, exAudio50]
      = [exAudio50, exAudio0, exNoAudio100] := by
  refine ⟨?_, ?_, ?_, by decide⟩
  · intro l
    exact List.perm_insertionSort fmtR l
  · intro l
    exact List.sorted_insertionSort fmtR l
  · intro l a b hsub hkey
    refine List.pair_sublist_insertionSort ?_ hsub
    show keyLE (pyKey b) (pyKey a) = true
    rw [hkey]
    exact keyLE_refl _

/-- Witness for C2: the tie pair keeps its input order through the sort. -/
theorem formats_ranking_stable_witness :
    List.Sublist [exTie1, exTie2] (pySortFormats [exNoAudio100, exTie1, exTie2]) :=
  formats_ranking_stable.2.2.1 [exNoAudio100, exTie1, exTie2] exTie1 exTie2
    (List.Sublist.cons _ (List.Sublist.refl _)) (by decide)

/-- C1 counterexample: with a URL matching the bilibili domain pattern and
Scraper B producing a (truthy) result whose formats list is empty, the
endpoint returns it as a 200 success with empty formats — so a
platform-scraper result is *not* returned as success only when it has at
least one format, and a 200 with empty formats is reachable. -/
theorem resolve_200_empty_formats_counterexample :
    resolve_video "https://b23.tv/xyz"
      { kgResult := none
        biliResult := some { title := some "t", thumbnail := some "p",
                             duration := some 3, webpage_url := some "w",
                             formats := [] }
        ydl := .error "boom" }
      = .ok { title := some "t", thumbnail := some "p", duration := some 3,
              webpage_url := some "w", formats := [] } := by rfl

/-- C1 amended: when no scraper produced a result and the generic extractor
raises, `/api/resolve` returns HTTP 400 whose detail is the underlying
error text; a platform-scraper result is returned as success whenever it
is non-`None` (truthy), regardless of whether its formats list is
non-empty. -/
theorem resolve_error_and_scraper_paths :
    (∀ (url : String) (env : ResolveEnv) (e : String),
      env.kgResult = none → env.biliResult = none → env.ydl = .error e →
      resolve_video url env = .error (400, e)) ∧
    (∀ (url : String) (env : ResolveEnv) (m : ResolvedMedia),
      hasSubS "kg.qq.com" url = true → env.kgResult = some m →
      resolve_video url env = .ok m) ∧
    (∀ (url : String) (env : ResolveEnv) (m : ResolvedMedia),
      hasSubS "kg.qq.com" url = false → hasSubS "bilibili.com" url = true →
      env.biliResult = some m → resolve_video url env = .ok m) := by
  refine ⟨?_, ?_, ?_⟩
  · intro url env e h1 h2 h3
    simp [resolve_video, h1, h2, h3]
  · intro url env m h1 h2
    simp [resolve_video, h1, h2]
  · intro url env m h1 h2 h3
    simp [resolve_video, h1, h2, h3]

/-- Witness for C1's amended theorem at concrete inputs. -/
theorem resolve_error_and_scraper_paths_witness :
    resolve_video "https://example.com/v"
      { kgResult := none, biliResult := none, ydl := .error "ERR" }
      = .error (400, "ERR") ∧
    resolve_video "https://kg.qq.com/s"
      { kgResult := some { title := some "k", thumbnail := some "", duration := none,
                           webpage_url := none, formats := [] }
        biliResult := none, ydl := .error "x" }
      = .ok { title := some "k", thumbnail := some "", duration := none,
              webpage_url := none, formats := [] } :=
  ⟨resolve_error_and_scraper_paths.1 "https://example.com/v" _ "ERR" rfl rfl rfl,
   resolve_error_and_scraper_paths.2.1 "https://kg.qq.com/s" _ _ (by decide) rfl⟩

theorem biliFormatsOfDurl_props :
    ∀ (durls : List BiliDurl) (fs : List Format), biliFormatsOfDurl durls = some fs →
      ∀ f ∈ fs, f.url.isSome = true ∧ f.has_audio = true ∧ f.type = some "video" := by
  intro durls
  induction durls with
  | nil =>
    intro fs h f hf
    simp only [biliFormatsOfDurl] at h
    injection h with h
    subst h
    cases hf
  | cons d rest ih =>
    intro fs h f hf
    simp only [biliFormatsOfDurl] at h
    cases hd : d.url with
    | none => rw [hd] at h; cases h
    | some u =>
      rw [hd] at h
      cases hr : biliFormatsOfDurl rest with
      | none => rw [hr] at h; cases h
      | some fs' =>
        rw [hr] at h
        simp only [Option.map_some'] at h
        injection h with h
        subst h
        cases hf with
        | head => exact ⟨rfl, rfl, rfl⟩
        | tail _ hf => exact ih fs' hr f hf

theorem kg_formats_props (fetch : HttpResult) (r : ResolvedMedia)
    (h : get_kg_video_info fetch = some r) :
    ∀ f ∈ r.formats, (∃ s, f.url = some s ∧ s ≠ "") ∧ f.has_audio = true ∧
      (f.type = some "video" ∨ f.type = some "audio") := by
  cases fetch with
  | err => cases h
  | resp st body =>
    simp only [get_kg_video_info] at h
    split at h
    · cases h
    · simp only [kg_parse] at h
      split at h
      · cases h
      · split at h
        · cases h
        · rename_i u hequ hu
          injection h with h
          subst h
          intro f hf
          simp only [kg_media, List.mem_singleton] at hf
          subst hf
          refine ⟨⟨String.mk u, rfl, ?_⟩, rfl, ?_⟩
          · intro hc
            have hdata : u = [] := congrArg String.data hc
            rw [hdata] at hu
            exact hu rfl
          · by_cases hm : (hasSub (".m4a".data) u || hasSub (".mp3".data) u) = true
            · rw [if_pos hm]
              exact Or.inr rfl
            · rw [if_neg hm]
              exact Or.inl rfl

theorem bili_formats_props (url : String) (i : ApiResult BiliViewJson)
    (p : ApiResult BiliPlayJson) (r : ResolvedMedia)
    (h : get_bilibili_video_info_fallback url i p = some r) :
    ∀ f ∈ r.formats, f.url.isSome = true ∧ f.has_audio = true ∧ f.type = some "video" := by
  simp only [get_bilibili_video_info_fallback] at h
  repeat' split at h
  all_goals try cases h
  · intro f hf
    cases hf
  · rename_i fs heq
    intro f hf
    exact biliFormatsOfDurl_props _ fs heq f hf
  · intro f hf
    cases hf

/-- The raw format of the C3 counterexample: a video format whose extractor
record carries no `url` key. -/
def c3raw : RawFormat :=
  { url := none, ext := some "mp4", format_note := some "720p", resolution := none
    filesize := none, format_id := some "f1", vcodec := some "h264"
    acodec := some "aac" }

/-- The Format the normalizer then produces: its `url` is `None`. -/
def c3fmt : Format :=
  { url := none, ext := some "mp4", format_note := some "720p", filesize := none
    format_id := some "f1", has_audio := true, type := some "video" }

def c3media : ResolvedMedia :=
  { title := some "T", thumbnail := none, duration := none, webpage_url := none
    formats := [c3fmt] }

/-- C3 counterexample: the generic-extractor path copies a raw format's
(missing) URL into the produced Format unchecked, so a successful
resolution can contain a Format with no URL at all — the non-empty-url
invariant fails. -/
theorem format_url_invariant_counterexample :
    resolve_video "https://example.com/v"
      { kgResult := none, biliResult := none
        ydl := .ok { title := some "T", thumbnail := none, duration := none
                     webpage_url := none, url := none, ext := none, filesize := none
                     formats := some [c3raw] } }
      = .ok c3media ∧ c3fmt.url = none := ⟨rfl, rfl⟩

/-- C3 amended: `has_audio` is boolean everywhere; Scraper A's Formats have
a non-empty url and a type in (video, audio); Scraper B's Formats have a
present (though unchecked) url and type video; classified
generic-extractor Formats have a type in (video, audio) but copy the raw
url unchecked; the synthesized single-URL fallback Format has a
non-empty url but carries no type key at all. -/
theorem format_invariants_by_path :
    (∀ (fetch : HttpResult) (r : ResolvedMedia), get_kg_video_info fetch = some r →
      ∀ f ∈ r.formats, (∃ s, f.url = some s ∧ s ≠ "") ∧ f.has_audio = true ∧
        (f.type = some "video" ∨ f.type = some "audio")) ∧
    (∀ (url : String) (i : ApiResult BiliViewJson) (p : ApiResult BiliPlayJson)
      (r : ResolvedMedia), get_bilibili_video_info_fallback url i p = some r →
      ∀ f ∈ r.formats, f.url.isSome = true ∧ f.has_audio = true ∧
        f.type = some "video") ∧
    (∀ (rf : RawFormat) (f : Format), classifyOne rf = some f →
      f.url = rf.url ∧ (f.type = some "video" ∨ f.type = some "audio")) ∧
    (∀ info : YdlInfo, truthyStr info.url = true →
      (∃ s, (fallbackFormat info).url = some s ∧ s ≠ "") ∧
      (fallbackFormat info).has_audio = true ∧ (fallbackFormat info).type = none) := by
  refine ⟨kg_formats_props, bili_formats_props, ?_, ?_⟩
  · intro rf f h
    simp only [classifyOne] at h
    split at h
    · injection h with h
      subst h
      exact ⟨rfl, Or.inl rfl⟩
    · split at h
      · injection h with h
        subst h
        exact ⟨rfl, Or.inr rfl⟩
      · cases h
  · intro info h
    cases hu : info.url with
    | none => rw [hu] at h; simp [truthyStr] at h
    | some s =>
      rw [hu] at h
      simp only [truthyStr, Bool.not_eq_false'] at h
      refine ⟨⟨s, ?_, ?_⟩, rfl, rfl⟩
      · simp [fallbackFormat, hu]
      · intro hc
        rw [hc] at h
        exact absurd h (by decide)

/-- Witness for C3's amended theorem at concrete inputs. -/
theorem format_invariants_by_path_witness :
    (c3fmt.url = c3raw.url ∧ (c3fmt.type = some "video" ∨ c3fmt.type = some "audio")) ∧
    ((∃ s, (fallbackFormat { title := none, thumbnail := none, duration := none
                             webpage_url := none, url := some "http://d/x.mp4"
                             ext := none, filesize := none, formats := none }).url
        = some s ∧ s ≠ "") ∧
      (fallbackFormat { title := none, thumbnail := none, duration := none
                        webpage_url := none, url := some "http://d/x.mp4"
                        ext := none, filesize := none, formats := none }).has_audio = true ∧
      (fallbackFormat { title := none, thumbnail := none, duration := none
                        webpage_url := none, url := some "http://d/x.mp4"
                        ext := none, filesize := none, formats := none }).type = none) :=
  ⟨format_invariants_by_path.2.2.1 c3raw c3fmt rfl,
   format_invariants_by_path.2.2.2 _ (by decide)⟩

theorem rstripPy_sublist (l : List Char) : List.Sublist (rstripPy l) l := by
  have h2 := (List.dropWhile_sublist (l := l.reverse) pyIsSpace).reverse
  simpa [rstripPy] using h2

theorem rstripPy_getLast?_not_space (l : List Char) (c : Char)
    (h : (rstripPy l).getLast? = some c) : pyIsSpace c = false := by
  unfold rstripPy at h
  rw [List.getLast?_reverse] at h
  have hnot := List.head?_dropWhile_not pyIsSpace l.reverse
  rw [h] at hnot
  exact hnot

theorem safe_title_of_eq (title : String) :
    (safe_title_of title = "video" ∧ rstripPy (title.data.filter allowedChar) = []) ∨
    ((safe_title_of title).data = rstripPy (title.data.filter allowedChar) ∧
      rstripPy (title.data.filter allowedChar) ≠ []) := by
  unfold safe_title_of
  by_cases h : (rstripPy (title.data.filter allowedChar)).isEmpty = true
  · left
    exact ⟨by rw [if_pos h], List.isEmpty_iff.mp h⟩
  · right
    refine ⟨by rw [if_neg h], fun hc => h (by simp [hc])⟩

/-- C8 counterexample: the sanitizer also strips trailing whitespace
(`rstrip`), so it does not keep exactly the allowed characters: on
`"a "` the code yields `"a"` while the claim's keep-exactly rule yields
`"a "`. -/
theorem sanitize_rstrip_counterexample :
    safe_title_of "a " = "a" ∧ safe_title_claim "a " = "a " ∧ ("a" : String) ≠ "a " :=
  ⟨rfl, rfl, by decide⟩

/-- C8 amended: the sanitizer keeps only alphanumerics, space, `-`, `_`,
`.` of the title, additionally strips trailing whitespace, falls back to
`"video"` when nothing remains, and maps the claim's concrete example to
`"MyVideoTest2024"`. -/
theorem sanitize_filter_rstrip (title : String) :
    safe_title_of "My/Video:Test*2024" = "MyVideoTest2024" ∧
    safe_title_of "" = "video" ∧
    (∀ c ∈ (safe_title_of title).data, allowedChar c = true) ∧
    (safe_title_of title).data ≠ [] ∧
    (∀ c, (safe_title_of title).data.getLast? = some c → pyIsSpace c = false) ∧
    (safe_title_of title = "video" ∨
      List.Sublist (safe_title_of title).data title.data) := by
  refine ⟨by decide, by decide, ?_, ?_, ?_, ?_⟩
  · intro c hc
    rcases safe_title_of_eq title with ⟨he, -⟩ | ⟨he, -⟩
    · rw [he] at hc
      have hc' : c ∈ ['v', 'i', 'd', 'e', 'o'] := hc
      simp only [List.mem_cons, List.not_mem_nil, or_false] at hc'
      rcases hc' with rfl | rfl | rfl | rfl | rfl <;> decide
    · rw [he] at hc
      have hmem := (rstripPy_sublist (title.data.filter allowedChar)).subset hc
      exact (List.mem_filter.mp hmem).2
  · rcases safe_title_of_eq title with ⟨he, -⟩ | ⟨he, hne⟩
    · rw [he]
      decide
    · rw [he]
      exact hne
  · intro c hcl
    rcases safe_title_of_eq title with ⟨he, -⟩ | ⟨he, -⟩
    · rw [he] at hcl
      have h2 : some 'o' = some c := hcl
      injection h2 with h2
      subst h2
      decide
    · rw [he] at hcl
      exact rstripPy_getLast?_not_space _ c hcl
  · rcases safe_title_of_eq title with ⟨he, -⟩ | ⟨he, -⟩
    · exact Or.inl he
    · refine Or.inr ?_
      rw [he]
      exact (rstripPy_sublist _).trans (List.filter_sublist _)

/-- Witness for C8's amended theorem at a concrete title. -/
theorem sanitize_filter_rstrip_witness :
    (safe_title_of "My Song. ").data ≠ [] :=
  (sanitize_filter_rstrip "My Song. ").2.2.2.1

/-- C9: with ffmpeg detected the download policy is best video+audio merged
into an mp4 container; without it the policy degrades to the single best
combined stream with no merge key set; and the absence of the merge tool
by itself never changes the outcome of the download path — given the
same download outcome both flags produce the same response, and the
no-ffmpeg path succeeds whenever a matching output file appears. -/
theorem download_format_policy :
    (∀ dir st : String, build_download_opts dir st true =
      { outtmpl := dir ++ "/" ++ st ++ ".%(ext)s"
        format := some "bestvideo+bestaudio/best"
        merge_output_format := some "mp4" }) ∧
    (∀ dir st : String, build_download_opts dir st false =
      { outtmpl := dir ++ "/" ++ st ++ ".%(ext)s"
        format := some "best", merge_output_format := none }) ∧
    (∀ (dir title : String) (out : DlOutcome),
      download_merged_generic dir title true (fun _ => out) =
      download_merged_generic dir title false (fun _ => out)) ∧
    (∀ (dir title : String) (dl : YdlDownloadOpts → DlOutcome)
      (listing : List String) (f : String),
      dl (build_download_opts dir (safe_title_of title) false) = .done listing →
      listing.find? (fun g => (safe_title_of title).data.isPrefixOf g.data) = some f →
      download_merged_generic dir title false dl = .ok f) := by
  refine ⟨fun dir st => rfl, fun dir st => rfl, fun dir title out => rfl, ?_⟩
  intro dir title dl listing f h1 h2
  simp only [download_merged_generic, h1]
  rw [h2]

/-- Witness for C9 at concrete inputs. -/
theorem download_format_policy_witness :
    download_merged_generic "downloads" "My Video" false
      (fun _ => DlOutcome.done ["My Video.mp4"]) = .ok "My Video.mp4" :=
  download_format_policy.2.2.2 "downloads" "My Video" _ ["My Video.mp4"]
    "My Video.mp4" rfl (by decide)

/-- C10: when the download step completes but no file in the scratch
directory starts with the sanitized stem, the 500 `HTTPException` raised
inside the `try` is caught by the surrounding generic handler and
re-raised as an HTTP 400 whose detail is the stringified original
exception, which contains the `Download failed: file not found`
message. -/
theorem download_file_not_found_as_400 :
    ∀ (dir title : String) (b : Bool) (dl : YdlDownloadOpts → DlOutcome)
      (listing : List String),
      dl (build_download_opts dir (safe_title_of title) b) = .done listing →
      listing.find? (fun g => (safe_title_of title).data.isPrefixOf g.data) = none →
      download_merged_generic dir title b dl =
        .error (400, httpExcStr 500 "Download failed: file not found") ∧
      hasSubS "Download failed: file not found"
        (httpExcStr 500 "Download failed: file not found") = true := by
  intro dir title b dl listing h1 h2
  constructor
  · simp only [download_merged_generic, h1]
    rw [h2]
  · decide

/-- Witness for C10 at concrete inputs. -/
theorem download_file_not_found_as_400_witness :
    download_merged_generic "downloads" "t" true (fun _ => DlOutcome.done []) =
      .error (400, httpExcStr 500 "Download failed: file not found") :=
  (download_file_not_found_as_400 "downloads" "t" true _ [] rfl rfl).1

end VideoExtraction
